import Mathlib

/-!
Verification of the migration-operation layer of the populus repository
(`populus/migrations/operations.py`) against its natural-language design
specification.  The Python classes are shallowly embedded: each operation
becomes a record holding its validated configuration, each constructor
(`__init__`) becomes a function returning `Except String op` (a raised
`ValueError` is an `Except.error` carrying the message string), and each
`execute` method becomes a pure function that threads the network client
as an oracle record and reports, next to its result, the list of
transactions it actually submitted and the operation's stored transaction
spec as it stands when `execute` returns.
-/

namespace Populus

/-- A transaction spec: the Python code passes transactions around as dicts
with the keys `from`, `to`, `value`, `gas`, `gasPrice` and `data`; an absent
key is `none`.  `dict(**t)` (a shallow copy) is the identity on this value
representation.  The dict keys `from` and `to` are Lean keywords, so they
live in the fields `fromAddr` and `toAddr`. -/
structure TransactionSpec where
  fromAddr : Option String := none
  toAddr : Option String := none
  value : Option Nat := none
  gas : Option Nat := none
  gasPrice : Option Nat := none
  data : Option String := none
deriving Repr, DecidableEq

/-- The empty transaction dict `{}` used as the default when the caller
passes `transaction=None`. -/
def TransactionSpec.empty : TransactionSpec := {}

/-- A compiled-contract artifact as stored in the `compiled_contracts`
table: `{abi, code, code_runtime, source}`. -/
structure ContractData where
  abi : String
  code : String
  code_runtime : String
  source : String
deriving Repr, DecidableEq

/-- The artifact table passed to `execute`: contract name to artifact. -/
def CompiledContracts := String → Option ContractData

/-- A value appearing in an execution-result mapping: either a plain string
(a transaction hash or an address) or a deferred value.

The deferred constructor is Modelled from the spec: `Address.defer` lives in
the registrar module, which is not under the sources; per the spec a
DeferredValue is `{key, resolver}` and `Address.defer(key=k, value=v)`
produces the placeholder with key `k` whose resolved value is `v`. -/
inductive ResultValue where
  | str : String → ResultValue
  | deferred : (key : String) → (value : String) → ResultValue
deriving Repr, DecidableEq

/-- An execution result: an ordered mapping from result name to value. -/
def ExecutionResult := List (String × ResultValue)

instance : DecidableEq ExecutionResult := by
  unfold ExecutionResult
  infer_instance

/-- The network-client oracle.  These are the capabilities §6 of the spec
requires of the external collaborator, plus the repository helpers from
`populus.utils.transactions` that are not under the sources.

Modelled from the spec: `get_block_gas_limit` reads the current block gas
limit (`getBlockGasLimit`); `wait_for_transaction_receipt` blocks until a
receipt is observed or the timeout elapses (`waitForTransactionReceipt`
returns `true` when a receipt arrives in time, `false` on timeout, which the
operations surface as a ConfirmationTimeout error); and
`get_contract_address_from_txn` polls for the receipt to obtain the deployed
address within the timeout (`getContractAddressFromTxn`, `none` on timeout).
Contract-factory capabilities (constructor-data encoding, deployment,
per-method gas estimation and transacting) take the artifact, the bound
address, the transaction and the method name and arguments as inputs. -/
structure Web3 where
  estimateGas : TransactionSpec → Nat
  getBlockGasLimit : Nat
  encodeConstructorData : ContractData → List String → String
  deploy : ContractData → TransactionSpec → List String → String
  sendTransaction : TransactionSpec → String
  getContractAddressFromTxn : String → Nat → Option String
  waitForTransactionReceipt : String → Nat → Bool
  getCode : String → String
  contractEstimateGas : ContractData → Option String → TransactionSpec → String → List String → Nat
  contractTransact : ContractData → Option String → TransactionSpec → String → List String → String

instance {ε α : Type} [DecidableEq ε] [DecidableEq α] : DecidableEq (Except ε α) := fun x y =>
  match x, y with
  | .error a, .error b =>
      if h : a = b then isTrue (by rw [h]) else isFalse (fun hxy => h (Except.error.inj hxy))
  | .error _, .ok _ => isFalse (fun hxy => Except.noConfusion hxy)
  | .ok _, .error _ => isFalse (fun hxy => Except.noConfusion hxy)
  | .ok a, .ok b =>
      if h : a = b then isTrue (by rw [h]) else isFalse (fun hxy => h (Except.ok.inj hxy))

/-- The outcome of running an operation's `execute`: the returned mapping or
the raised error, the transactions submitted to the network while it ran (in
order), and the operation's stored transaction spec (`self.transaction`) as
it stands when `execute` returns; `execute` contains no assignment to
`self.transaction`, so the embedding carries the field through unchanged. -/
structure ExecOutcome where
  result : Except String ExecutionResult
  submitted : List TransactionSpec
  finalTransaction : TransactionSpec
deriving DecidableEq

/-- Does a result mapping contain a transaction-hash-like identifier, that
is an entry under one of the two hash keys the operations produce? -/
def hasTxnHashLike (r : ExecutionResult) : Bool :=
  r.any fun p => p.1 == "transaction-hash" || p.1 == "deploy-transaction-hash"

/-- The `RunPython` operation: holds an arbitrary callback that receives the
execution context and whose result is returned unchanged. -/
structure RunPython where
  callback : Web3 → ExecutionResult

/-- The `RunPython.execute` method: `return self.callback(**kwargs)`. -/
def RunPython.execute (op : RunPython) (web3 : Web3) : ExecutionResult :=
  op.callback web3

/-- The `SendTransaction` operation after construction. -/
structure SendTransaction where
  transaction : TransactionSpec
  timeout : Option Nat
deriving Repr, DecidableEq

/-- The `SendTransaction.__init__` constructor.  The class attribute is
`timeout = 30`; the Python default for the `timeout` parameter is `120`
(callers of this embedding pass the argument explicitly).  The body runs
`self.timeout = timeout` only when the parameter is not `None`, so passing
`None` leaves the class attribute 30 in place. -/
def SendTransaction.init (transaction : TransactionSpec) (timeout : Option Nat) :
    SendTransaction :=
  { transaction := transaction
    timeout := match timeout with
      | some t => some t
      | none => some 30 }

/-- The `SendTransaction.execute` method: submit `self.transaction`; when
`self.timeout` is not `None`, block for the receipt with that timeout
(raising on expiry); return `{transaction-hash}`. -/
def SendTransaction.execute (op : SendTransaction) (web3 : Web3) : ExecOutcome :=
  let transaction_hash := web3.sendTransaction op.transaction
  match op.timeout with
  | some t =>
      if web3.waitForTransactionReceipt transaction_hash t then
        ⟨.ok [("transaction-hash", .str transaction_hash)], [op.transaction], op.transaction⟩
      else
        ⟨.error "ConfirmationTimeout", [op.transaction], op.transaction⟩
  | none =>
      ⟨.ok [("transaction-hash", .str transaction_hash)], [op.transaction], op.transaction⟩

/-- The `DeployContract` operation after construction. -/
structure DeployContract where
  contract_name : String
  transaction : TransactionSpec
  arguments : List String
  verify : Bool
  auto_gas : Bool
  timeout : Option Nat
deriving Repr, DecidableEq

/-- The `DeployContract.__init__` constructor.  Python defaults:
`transaction=None`, `arguments=None`, `verify=True`, `auto_gas=True`,
`timeout=120`; callers of this embedding pass every argument explicitly.
The validations run in source order: missing timeout under `verify`, then
forbidden `data`/`to` keys, then the `auto_gas`/preset-`gas` conflict.  The
class attribute `timeout = None` is kept when the parameter is `None`. -/
def DeployContract.init (contract_name : String) (transaction : Option TransactionSpec)
    (arguments : Option (List String)) (verify : Bool) (auto_gas : Bool)
    (timeout : Option Nat) : Except String DeployContract :=
  if timeout = none && verify then
    .error "Invalid configuration.  When verifying a contracts deployment, the timeout value must be set."
  else
    let transaction := transaction.getD TransactionSpec.empty
    if transaction.data.isSome || transaction.toAddr.isSome then
      .error "Invalid configuration.  You cannot specify `data` or `to` values in `DeployContract` transactions."
    else if auto_gas && transaction.gas.isSome then
      .error "Invalid configuration.  Cannot use `auto_gas` when specifying a gas value for a transaction"
    else
      let arguments := arguments.getD []
      .ok { contract_name := contract_name
            transaction := transaction
            arguments := arguments
            verify := verify
            auto_gas := auto_gas
            timeout := timeout }

/-- The auto-gas block of `DeployContract.execute`: starting from the copy
`deploy_transaction` of the stored spec, when auto-gas is on it encodes the
constructor call into a second copy, estimates gas for it, rejects an
estimate above the block gas limit, and otherwise writes
`min(gas_limit, gas_estimate + 100000)` into the copy to be deployed. -/
def DeployContract.budgetedTransaction (op : DeployContract) (web3 : Web3)
    (contract_data : ContractData) : Except String TransactionSpec :=
  let deploy_transaction := op.transaction
  if op.auto_gas then
    let gas_estimate_transaction := op.transaction
    let deploy_data := web3.encodeConstructorData contract_data op.arguments
    let gas_estimate_transaction := { gas_estimate_transaction with data := some deploy_data }
    let gas_estimate := web3.estimateGas gas_estimate_transaction
    let gas_limit := web3.getBlockGasLimit
    if gas_estimate > gas_limit then
      .error "Contract does not appear to be delpoyable within the current network gas limits"
    else
      .ok { deploy_transaction with gas := some (min gas_limit (gas_estimate + 100000)) }
  else
    .ok deploy_transaction

/-- The `DeployContract.execute` method.  Looks up the artifact (a missing
name is a Python `KeyError`), optionally runs the auto-gas budgeting on a
copy of the stored transaction, deploys through the contract factory, and
when a timeout is set waits for the address and optionally verifies the
deployed bytecode (`force_text` on both comparands is the identity here
since the embedding uses strings throughout). -/
def DeployContract.execute (op : DeployContract) (web3 : Web3)
    (compiled_contracts : CompiledContracts) : ExecOutcome :=
  match compiled_contracts op.contract_name with
  | none => ⟨.error "KeyError", [], op.transaction⟩
  | some contract_data =>
    match op.budgetedTransaction web3 contract_data with
    | .error e => ⟨.error e, [], op.transaction⟩
    | .ok deploy_transaction =>
      let deploy_transaction_hash := web3.deploy contract_data deploy_transaction op.arguments
      match op.timeout with
      | some t =>
        match web3.getContractAddressFromTxn deploy_transaction_hash t with
        | none => ⟨.error "ConfirmationTimeout", [deploy_transaction], op.transaction⟩
        | some contract_address =>
          if op.verify && web3.getCode contract_address != contract_data.code_runtime then
            ⟨.error "An error occured during deployment of the contract.",
             [deploy_transaction], op.transaction⟩
          else
            ⟨.ok [("contract-address", .str contract_address),
                  ("deploy-transaction-hash", .str deploy_transaction_hash),
                  ("canonical-contract-address",
                    .deferred ("contract/" ++ op.contract_name) contract_address)],
             [deploy_transaction], op.transaction⟩
      | none =>
        ⟨.ok [("deploy-transaction-hash", .str deploy_transaction_hash)],
         [deploy_transaction], op.transaction⟩

/-- The `TransactContract` operation after construction. -/
structure TransactContract where
  contract_address : Option String
  contract_name : String
  method_name : String
  arguments : List String
  transaction : TransactionSpec
  auto_gas : Bool
  timeout : Option Nat
deriving Repr, DecidableEq

/-- The `TransactContract.__init__` constructor.  Python defaults:
`arguments=None`, `transaction=None`, `contract_address=None`,
`auto_gas=True`, `timeout=120`; callers of this embedding pass every
argument explicitly.  The `auto_gas`/preset-`gas` validation reads the
caller's flag, but the body then runs the unconditional assignment
`self.auto_gas = True`, so the stored flag is always `true`. -/
def TransactContract.init (contract_name : String) (method_name : String)
    (arguments : Option (List String)) (transaction : Option TransactionSpec)
    (contract_address : Option String) (auto_gas : Bool) (timeout : Option Nat) :
    Except String TransactContract :=
  let arguments := arguments.getD []
  let transaction := transaction.getD TransactionSpec.empty
  if auto_gas && transaction.gas.isSome then
    .error "Invalid configuration.  Cannot use `auto_gas` when specifying a gas value for a transaction"
  else
    .ok { contract_address := contract_address
          contract_name := contract_name
          method_name := method_name
          arguments := arguments
          transaction := transaction
          auto_gas := true
          timeout := timeout }

/-- The auto-gas block of `TransactContract.execute`: starting from the
copy `transaction` of the stored spec, when auto-gas is on it estimates gas
for invoking the method with the arguments under a second copy of the spec,
rejects an estimate above the block gas limit, and otherwise writes
`min(gas_limit, gas_estimate + 100000)` into the copy. -/
def TransactContract.budgetedTransaction (op : TransactContract) (web3 : Web3)
    (contract_data : ContractData) : Except String TransactionSpec :=
  let transaction := op.transaction
  if op.auto_gas then
    let gas_estimate_txn := op.transaction
    let gas_estimate :=
      web3.contractEstimateGas contract_data op.contract_address gas_estimate_txn
        op.method_name op.arguments
    let gas_limit := web3.getBlockGasLimit
    if gas_estimate > gas_limit then
      .error "Contract transaction appears to execeed the block gas limit"
    else
      .ok { transaction with gas := some (min gas_limit (gas_estimate + 100000)) }
  else
    .ok transaction

/-- The `TransactContract.execute` method.  Estimates gas for the named
method through the contract binding and writes the budgeted value into the
local copy `transaction`, but the submission line passes `self.transaction`
to `contract.transact`, so the budgeted copy never reaches the network. -/
def TransactContract.execute (op : TransactContract) (web3 : Web3)
    (compiled_contracts : CompiledContracts) : ExecOutcome :=
  match compiled_contracts op.contract_name with
  | none => ⟨.error "KeyError", [], op.transaction⟩
  | some contract_data =>
    match op.budgetedTransaction web3 contract_data with
    | .error e => ⟨.error e, [], op.transaction⟩
    | .ok _transaction =>
      let transaction_hash :=
        web3.contractTransact contract_data op.contract_address op.transaction
          op.method_name op.arguments
      match op.timeout with
      | some t =>
        if web3.waitForTransactionReceipt transaction_hash t then
          ⟨.ok [("deploy-transaction-hash", .str transaction_hash)],
           [op.transaction], op.transaction⟩
        else
          ⟨.error "ConfirmationTimeout", [op.transaction], op.transaction⟩
      | none =>
        ⟨.ok [("deploy-transaction-hash", .str transaction_hash)],
         [op.transaction], op.transaction⟩

/-! Concrete fixtures used to exercise the definitions: a compiled artifact
table holding one contract, and network oracles with fixed answers. -/

/-- A concrete compiled artifact, standing in for the `Greeter` example. -/
def greeterData : ContractData :=
  { abi := "[]"
    code := "0x6060code"
    code_runtime := "0x6060runtime"
    source := "contract Greeter" }

/-- A concrete artifact table containing only `Greeter`. -/
def testContracts : CompiledContracts := fun name =>
  if name = "Greeter" then some greeterData else none

/-- A concrete network oracle on which every step succeeds: the gas estimate
is 50000 against a block gas limit of 4000000, receipts arrive in time, and
the code read back at any address matches the runtime bytecode. -/
def testWeb3 : Web3 :=
  { estimateGas := fun _ => 50000
    getBlockGasLimit := 4000000
    encodeConstructorData := fun _ _ => "0xconstructordata"
    deploy := fun _ _ _ => "0xdeployhash"
    sendTransaction := fun _ => "0xsendhash"
    getContractAddressFromTxn := fun _ _ => some "0xaddress"
    waitForTransactionReceipt := fun _ _ => true
    getCode := fun _ => "0x6060runtime"
    contractEstimateGas := fun _ _ _ _ _ => 50000
    contractTransact := fun _ _ _ _ _ => "0xtxnhash" }

/-- The oracle on which no receipt ever arrives within any timeout. -/
def web3NoReceipt : Web3 :=
  { testWeb3 with waitForTransactionReceipt := fun _ _ => false }

/-- The oracle whose per-method gas estimate exceeds the block gas limit. -/
def web3HighMethodEstimate : Web3 :=
  { testWeb3 with contractEstimateGas := fun _ _ _ _ _ => 4000001 }

/-- The oracle whose constructor-call gas estimate exceeds the limit. -/
def web3HighDeployEstimate : Web3 :=
  { testWeb3 with estimateGas := fun _ => 4000001 }

/-- The oracle that reads back wrong bytecode at every address. -/
def web3BadCode : Web3 :=
  { testWeb3 with getCode := fun _ => "0xwrongcode" }

/-- A concrete deployment operation for `Greeter` with all defaults. -/
def greeterDeployOp : DeployContract :=
  { contract_name := "Greeter"
    transaction := TransactionSpec.empty
    arguments := []
    verify := true
    auto_gas := true
    timeout := some 120 }

/-- A concrete method-call operation on a deployed `Greeter`. -/
def greeterTransactOp : TransactContract :=
  { contract_address := some "0xaddress"
    contract_name := "Greeter"
    method_name := "setGreeting"
    arguments := ["Guten Tag"]
    transaction := TransactionSpec.empty
    auto_gas := true
    timeout := some 120 }

/-- The oracle on which every gas estimate exceeds the block gas limit. -/
def web3AllHighEstimates : Web3 :=
  { testWeb3 with
    estimateGas := fun _ => 4000001
    contractEstimateGas := fun _ _ _ _ _ => 4000001 }

/-- C1: with auto-gas enabled and an estimate of 50000 against a block gas
limit of 4000000 (so the estimate is at most the limit), the transaction
`DeployContract.execute` submits carries gas `min(4000000, 50000 + 100000)
= 150000`, but the transaction `TransactContract.execute` submits carries
no gas field at all: the budgeted copy is computed and then dropped because
the submission passes the stored spec rather than the copy. -/
theorem C1_transact_discards_budgeted_gas :
    (greeterDeployOp.execute testWeb3 testContracts).submitted.map TransactionSpec.gas
      = [some 150000] ∧
    (greeterTransactOp.execute testWeb3 testContracts).submitted.map TransactionSpec.gas
      = [none] ∧
    min testWeb3.getBlockGasLimit (50000 + 100000) = 150000 := by
  refine ⟨by decide, by decide, by decide⟩

/-- C2: every `TransactContract` that construction accepts stores
`auto_gas = true`, whatever flag the caller passed, and consequently its
`execute` runs the automatic gas-budgeting step: whenever the per-method
estimate exceeds the block gas limit it fails with the gas-limit error. -/
theorem C2_transact_auto_gas_forced
    (contract_name method_name : String) (arguments : Option (List String))
    (transaction : Option TransactionSpec) (contract_address : Option String)
    (auto_gas : Bool) (timeout : Option Nat) (op : TransactContract)
    (h : TransactContract.init contract_name method_name arguments transaction
      contract_address auto_gas timeout = .ok op) :
    op.auto_gas = true ∧
    ∀ (web3 : Web3) (cc : CompiledContracts) (cd : ContractData),
      cc op.contract_name = some cd →
      web3.contractEstimateGas cd op.contract_address op.transaction
          op.method_name op.arguments > web3.getBlockGasLimit →
      (op.execute web3 cc).result
        = .error "Contract transaction appears to execeed the block gas limit" := by
  have hag : op.auto_gas = true := by
    unfold TransactContract.init at h
    dsimp only at h
    split at h
    · exact absurd h (by simp)
    · cases h
      rfl
  refine ⟨hag, ?_⟩
  intro web3 cc cd hcc hgt
  have hb : op.budgetedTransaction web3 cd
      = .error "Contract transaction appears to execeed the block gas limit" := by
    unfold TransactContract.budgetedTransaction
    dsimp only
    rw [if_pos hag, if_pos hgt]
  unfold TransactContract.execute
  rw [hcc]
  dsimp only
  rw [hb]

/-- Witness for C2 at a concrete input: the caller passes `auto_gas=false`,
yet the constructed operation stores `true` and its execute fails with the
gas-limit error on an oracle whose estimate exceeds the limit. -/
theorem C2_transact_auto_gas_forced_witness :
    greeterTransactOp.auto_gas = true ∧
    (greeterTransactOp.execute web3HighMethodEstimate testContracts).result
      = .error "Contract transaction appears to execeed the block gas limit" :=
  ⟨(C2_transact_auto_gas_forced "Greeter" "setGreeting" (some ["Guten Tag"]) none
      (some "0xaddress") false (some 120) greeterTransactOp rfl).1,
   (C2_transact_auto_gas_forced "Greeter" "setGreeting" (some ["Guten Tag"]) none
      (some "0xaddress") false (some 120) greeterTransactOp rfl).2
     web3HighMethodEstimate testContracts greeterData rfl (by decide)⟩

/-- C3: `SendTransaction` stores 120 when the timeout parameter is 120 (the
Python default), but constructing it with the timeout explicitly `None`
leaves the class attribute 30 in place, and its execute still blocks for a
receipt, failing with a confirmation timeout when none arrives, rather than
returning the transaction hash without waiting. -/
theorem C3_send_timeout_none_still_blocks :
    (SendTransaction.init TransactionSpec.empty (some 120)).timeout = some 120 ∧
    (SendTransaction.init TransactionSpec.empty none).timeout = some 30 ∧
    ((SendTransaction.init TransactionSpec.empty none).execute web3NoReceipt).result
      = .error "ConfirmationTimeout" :=
  ⟨rfl, rfl, rfl⟩

/-- C8: constructing a `DeployContract` with `verify = true` and a `None`
timeout fails with the configuration error; the constructor is a pure
function of the configuration and takes no network handle, so the failure
happens before any network interaction. -/
theorem C8_verify_without_timeout_rejected
    (contract_name : String) (transaction : Option TransactionSpec)
    (arguments : Option (List String)) (auto_gas : Bool) :
    DeployContract.init contract_name transaction arguments true auto_gas none
      = .error "Invalid configuration.  When verifying a contracts deployment, the timeout value must be set." := by
  unfold DeployContract.init
  simp

/-- C9: for both `DeployContract` and `TransactContract`, passing
`auto_gas = true` together with a transaction spec that presets a `gas`
value makes construction fail with a configuration error. -/
theorem C9_auto_gas_preset_gas_rejected
    (contract_name method_name : String) (transaction : TransactionSpec)
    (arguments : Option (List String)) (verify : Bool)
    (contract_address : Option String) (timeout : Option Nat)
    (h : transaction.gas.isSome = true) :
    (∃ e, DeployContract.init contract_name (some transaction) arguments verify true timeout
      = .error e) ∧
    (∃ e, TransactContract.init contract_name method_name arguments (some transaction)
      contract_address true timeout = .error e) := by
  constructor
  · unfold DeployContract.init
    split
    · exact ⟨_, rfl⟩
    · simp only [Option.getD_some]
      split
      · exact ⟨_, rfl⟩
      · rw [if_pos (by simp [h])]
        exact ⟨_, rfl⟩
  · unfold TransactContract.init
    simp only [Option.getD_some]
    rw [if_pos (by simp [h])]
    exact ⟨_, rfl⟩

/-- Witness for C9 at a concrete input: a spec presetting `gas = 21000`
is rejected by both constructors when auto-gas is requested. -/
theorem C9_auto_gas_preset_gas_rejected_witness :
    (∃ e, DeployContract.init "Greeter" (some { gas := some 21000 }) none true true (some 120)
      = .error e) ∧
    (∃ e, TransactContract.init "Greeter" "setGreeting" none (some { gas := some 21000 })
      none true (some 120) = .error e) :=
  C9_auto_gas_preset_gas_rejected "Greeter" "setGreeting" { gas := some 21000 }
    none true none (some 120) rfl

/-- Overwriting the `gas` field of a spec twice, the second time with its
original value, restores the original spec. -/
theorem TransactionSpec.gas_overwrite_roundtrip (t : TransactionSpec) (g : Option Nat) :
    ({ { t with gas := g } with gas := t.gas } == t) = true := by
  have h : { { t with gas := g } with gas := t.gas } = t := by cases t; rfl
  simp [h]

/-- Overwriting the `gas` field of a spec with its own value is the
identity. -/
theorem TransactionSpec.gas_self_roundtrip (t : TransactionSpec) :
    ({ t with gas := t.gas } == t) = true := by
  have h : { t with gas := t.gas } = t := by cases t; rfl
  simp [h]

/-- Shape of any successful `SendTransaction.execute` result: a single
entry under the `transaction-hash` key. -/
theorem send_execute_result_shape (op : SendTransaction) (web3 : Web3)
    (r : ExecutionResult) (h : (op.execute web3).result = .ok r) :
    ∃ hash, r = [("transaction-hash", ResultValue.str hash)] := by
  unfold SendTransaction.execute at h
  dsimp only at h
  split at h
  · split at h
    · exact ⟨_, (Except.ok.inj h).symm⟩
    · exact absurd h (by simp)
  · exact ⟨_, (Except.ok.inj h).symm⟩

/-- Shape of any successful `DeployContract.execute` result: with a timeout
the address, the deploy hash, and the deferred registrar entry keyed
`contract/<name>` carrying the same address; without a timeout the deploy
hash alone. -/
theorem deploy_execute_result_shape (op : DeployContract) (web3 : Web3)
    (cc : CompiledContracts) (r : ExecutionResult)
    (h : (op.execute web3 cc).result = .ok r) :
    (∃ t addr hash, op.timeout = some t ∧
      r = [("contract-address", ResultValue.str addr),
           ("deploy-transaction-hash", ResultValue.str hash),
           ("canonical-contract-address",
             ResultValue.deferred ("contract/" ++ op.contract_name) addr)]) ∨
    (op.timeout = none ∧ ∃ hash, r = [("deploy-transaction-hash", ResultValue.str hash)]) := by
  unfold DeployContract.execute at h
  split at h
  · exact absurd h (by simp)
  · split at h
    · exact absurd h (by simp)
    · dsimp only at h
      split at h
      · rename_i t hto
        split at h
        · exact absurd h (by simp)
        · rename_i addr haddr
          split at h
          · exact absurd h (by simp)
          · exact .inl ⟨t, addr, _, hto, (Except.ok.inj h).symm⟩
      · rename_i hto
        exact .inr ⟨hto, _, (Except.ok.inj h).symm⟩

/-- Shape of any successful `TransactContract.execute` result: a single
entry under the `deploy-transaction-hash` key. -/
theorem transact_execute_result_shape (op : TransactContract) (web3 : Web3)
    (cc : CompiledContracts) (r : ExecutionResult)
    (h : (op.execute web3 cc).result = .ok r) :
    ∃ hash, r = [("deploy-transaction-hash", ResultValue.str hash)] := by
  unfold TransactContract.execute at h
  split at h
  · exact absurd h (by simp)
  · split at h
    · exact absurd h (by simp)
    · dsimp only at h
      split at h
      · split at h
        · exact ⟨_, (Except.ok.inj h).symm⟩
        · exact absurd h (by simp)
      · exact ⟨_, (Except.ok.inj h).symm⟩

/-- C4: for both operation kinds with auto-gas enabled, when the gas
estimate exceeds the block gas limit, `execute` fails with the respective
gas-limit error and submits no transaction to the network. -/
theorem C4_gas_limit_exceeded_aborts
    (dop : DeployContract) (top : TransactContract) (web3 : Web3)
    (cc : CompiledContracts) (cd cd' : ContractData) :
    (cc dop.contract_name = some cd →
      dop.auto_gas = true →
      web3.estimateGas { dop.transaction with
          data := some (web3.encodeConstructorData cd dop.arguments) }
        > web3.getBlockGasLimit →
      (dop.execute web3 cc).result
        = .error "Contract does not appear to be delpoyable within the current network gas limits" ∧
      (dop.execute web3 cc).submitted = []) ∧
    (cc top.contract_name = some cd' →
      top.auto_gas = true →
      web3.contractEstimateGas cd' top.contract_address top.transaction
          top.method_name top.arguments > web3.getBlockGasLimit →
      (top.execute web3 cc).result
        = .error "Contract transaction appears to execeed the block gas limit" ∧
      (top.execute web3 cc).submitted = []) := by
  constructor
  · intro hcc hag hgt
    have hb : dop.budgetedTransaction web3 cd
        = .error "Contract does not appear to be delpoyable within the current network gas limits" := by
      unfold DeployContract.budgetedTransaction
      dsimp only
      rw [if_pos hag, if_pos hgt]
    have hex : dop.execute web3 cc
        = ⟨.error "Contract does not appear to be delpoyable within the current network gas limits",
           [], dop.transaction⟩ := by
      unfold DeployContract.execute
      rw [hcc]
      dsimp only
      rw [hb]
    rw [hex]
    exact ⟨rfl, rfl⟩
  · intro hcc hag hgt
    have hb : top.budgetedTransaction web3 cd'
        = .error "Contract transaction appears to execeed the block gas limit" := by
      unfold TransactContract.budgetedTransaction
      dsimp only
      rw [if_pos hag, if_pos hgt]
    have hex : top.execute web3 cc
        = ⟨.error "Contract transaction appears to execeed the block gas limit",
           [], top.transaction⟩ := by
      unfold TransactContract.execute
      rw [hcc]
      dsimp only
      rw [hb]
    rw [hex]
    exact ⟨rfl, rfl⟩

/-- Witness for C4 at a concrete input: with estimates of 4000001 against
the limit 4000000, both operations fail with their gas-limit error and
submit nothing. -/
theorem C4_gas_limit_exceeded_aborts_witness :
    ((greeterDeployOp.execute web3AllHighEstimates testContracts).result
        = .error "Contract does not appear to be delpoyable within the current network gas limits" ∧
      (greeterDeployOp.execute web3AllHighEstimates testContracts).submitted = []) ∧
    ((greeterTransactOp.execute web3AllHighEstimates testContracts).result
        = .error "Contract transaction appears to execeed the block gas limit" ∧
      (greeterTransactOp.execute web3AllHighEstimates testContracts).submitted = []) :=
  ⟨(C4_gas_limit_exceeded_aborts greeterDeployOp greeterTransactOp web3AllHighEstimates
      testContracts greeterData greeterData).1 rfl rfl (by decide),
   (C4_gas_limit_exceeded_aborts greeterDeployOp greeterTransactOp web3AllHighEstimates
      testContracts greeterData greeterData).2 rfl rfl (by decide)⟩

/-- C5: a successful `DeployContract.execute` with a timeout set returns
the contract address, the deploy transaction hash, and a deferred value
under key `contract/<contractName>` resolving to that same address; with no
timeout it returns the deploy transaction hash alone. -/
theorem C5_deploy_result_mapping
    (op : DeployContract) (web3 : Web3) (cc : CompiledContracts) (r : ExecutionResult)
    (h : (op.execute web3 cc).result = .ok r) :
    (op.timeout ≠ none →
      ∃ addr hash,
        r = [("contract-address", ResultValue.str addr),
             ("deploy-transaction-hash", ResultValue.str hash),
             ("canonical-contract-address",
               ResultValue.deferred ("contract/" ++ op.contract_name) addr)]) ∧
    (op.timeout = none →
      ∃ hash, r = [("deploy-transaction-hash", ResultValue.str hash)]) := by
  rcases deploy_execute_result_shape op web3 cc r h with
    ⟨t, addr, hash, hto, hr⟩ | ⟨hto, hash, hr⟩
  · constructor
    · intro _
      exact ⟨addr, hash, hr⟩
    · intro hnone
      rw [hto] at hnone
      cases hnone
  · constructor
    · intro hne
      exact absurd hto hne
    · intro _
      exact ⟨hash, hr⟩

/-- Witness for C5 at a concrete input: the `Greeter` deployment on the
all-success oracle returns the triple with the deferred entry keyed
`contract/Greeter` resolving to the returned address. -/
theorem C5_deploy_result_mapping_witness :
    (greeterDeployOp.timeout ≠ none →
      ∃ addr hash,
        ([("contract-address", ResultValue.str "0xaddress"),
          ("deploy-transaction-hash", ResultValue.str "0xdeployhash"),
          ("canonical-contract-address",
            ResultValue.deferred "contract/Greeter" "0xaddress")] : ExecutionResult)
          = [("contract-address", ResultValue.str addr),
             ("deploy-transaction-hash", ResultValue.str hash),
             ("canonical-contract-address",
               ResultValue.deferred ("contract/" ++ greeterDeployOp.contract_name) addr)]) ∧
    (greeterDeployOp.timeout = none →
      ∃ hash,
        ([("contract-address", ResultValue.str "0xaddress"),
          ("deploy-transaction-hash", ResultValue.str "0xdeployhash"),
          ("canonical-contract-address",
            ResultValue.deferred "contract/Greeter" "0xaddress")] : ExecutionResult)
          = [("deploy-transaction-hash", ResultValue.str hash)]) :=
  C5_deploy_result_mapping greeterDeployOp testWeb3 testContracts
    [("contract-address", ResultValue.str "0xaddress"),
     ("deploy-transaction-hash", ResultValue.str "0xdeployhash"),
     ("canonical-contract-address", ResultValue.deferred "contract/Greeter" "0xaddress")]
    rfl

/-- C6: a verifying deployment whose on-chain code read back differs from
the artifact's runtime bytecode fails with the deployment error, although
the deploy transaction had already been submitted (one submission is on
the wire) and its address confirmed. -/
theorem C6_verify_mismatch_fails
    (op : DeployContract) (web3 : Web3) (cc : CompiledContracts) (cd : ContractData) (t : Nat)
    (hcc : cc op.contract_name = some cd)
    (hv : op.verify = true)
    (ht : op.timeout = some t)
    (hgas : op.auto_gas = true →
      web3.estimateGas { op.transaction with
        data := some (web3.encodeConstructorData cd op.arguments) } ≤ web3.getBlockGasLimit)
    (haddr : ∀ hash, (web3.getContractAddressFromTxn hash t).isSome = true)
    (hcode : ∀ a, web3.getCode a ≠ cd.code_runtime) :
    (op.execute web3 cc).result = .error "An error occured during deployment of the contract." ∧
    (op.execute web3 cc).submitted.length = 1 := by
  have hb : ∃ dt, op.budgetedTransaction web3 cd = .ok dt := by
    unfold DeployContract.budgetedTransaction
    dsimp only
    split
    · rename_i hag
      rw [if_neg (not_lt.mpr (hgas hag))]
      exact ⟨_, rfl⟩
    · exact ⟨_, rfl⟩
  obtain ⟨dt, hbEq⟩ := hb
  obtain ⟨addr, haddrEq⟩ :=
    Option.isSome_iff_exists.mp (haddr (web3.deploy cd dt op.arguments))
  have hex : op.execute web3 cc
      = ⟨.error "An error occured during deployment of the contract.", [dt], op.transaction⟩ := by
    unfold DeployContract.execute
    rw [hcc]
    dsimp only
    rw [hbEq]
    dsimp only
    rw [ht]
    dsimp only
    rw [haddrEq]
    dsimp only
    rw [if_pos (by simp only [hv, Bool.true_and, bne_iff_ne]; exact hcode addr)]
  rw [hex]
  exact ⟨rfl, rfl⟩

/-- Witness for C6 at a concrete input: on the oracle that reads back wrong
bytecode, the `Greeter` deployment fails with the deployment error after
one submission. -/
theorem C6_verify_mismatch_fails_witness :
    (greeterDeployOp.execute web3BadCode testContracts).result
      = .error "An error occured during deployment of the contract." ∧
    (greeterDeployOp.execute web3BadCode testContracts).submitted.length = 1 :=
  C6_verify_mismatch_fails greeterDeployOp web3BadCode testContracts greeterData 120
    rfl rfl rfl (fun _ => by decide) (fun _ => rfl) (fun _ => of_decide_eq_false rfl)

/-- C7, amended: successful executes of `SendTransaction`,
`DeployContract` and `TransactContract` always return a mapping holding a
transaction-hash-like identifier; `RunPython` merely forwards its
callback's result, which need not contain one. -/
theorem C7_amended_hash_always_present
    (s : SendTransaction) (d : DeployContract) (t : TransactContract)
    (web3 : Web3) (cc : CompiledContracts) (r1 r2 r3 : ExecutionResult)
    (h1 : (s.execute web3).result = .ok r1)
    (h2 : (d.execute web3 cc).result = .ok r2)
    (h3 : (t.execute web3 cc).result = .ok r3) :
    hasTxnHashLike r1 = true ∧ hasTxnHashLike r2 = true ∧ hasTxnHashLike r3 = true := by
  obtain ⟨hash1, hr1⟩ := send_execute_result_shape s web3 r1 h1
  obtain ⟨hash3, hr3⟩ := transact_execute_result_shape t web3 cc r3 h3
  subst hr1
  subst hr3
  refine ⟨rfl, ?_, rfl⟩
  rcases deploy_execute_result_shape d web3 cc r2 h2 with
    ⟨_, _, _, _, hr2⟩ | ⟨_, _, hr2⟩ <;> subst hr2 <;> rfl

/-- Counterexample to C7 as stated: a `RunPython` built from a callback
returning the empty mapping executes successfully to a result with no
transaction-hash-like identifier at all. -/
theorem C7_runpython_no_hash :
    RunPython.execute ⟨fun _ => []⟩ testWeb3 = ([] : ExecutionResult) ∧
    hasTxnHashLike (RunPython.execute ⟨fun _ => []⟩ testWeb3) = false :=
  ⟨rfl, rfl⟩

/-- Witness for the amended C7 at concrete inputs: the three hash-carrying
results produced on the all-success oracle. -/
theorem C7_amended_hash_always_present_witness :
    hasTxnHashLike [("transaction-hash", ResultValue.str "0xsendhash")] = true ∧
    hasTxnHashLike [("contract-address", ResultValue.str "0xaddress"),
      ("deploy-transaction-hash", ResultValue.str "0xdeployhash"),
      ("canonical-contract-address",
        ResultValue.deferred "contract/Greeter" "0xaddress")] = true ∧
    hasTxnHashLike [("deploy-transaction-hash", ResultValue.str "0xtxnhash")] = true :=
  C7_amended_hash_always_present (SendTransaction.init TransactionSpec.empty (some 120))
    greeterDeployOp greeterTransactOp testWeb3 testContracts
    [("transaction-hash", ResultValue.str "0xsendhash")]
    [("contract-address", ResultValue.str "0xaddress"),
     ("deploy-transaction-hash", ResultValue.str "0xdeployhash"),
     ("canonical-contract-address", ResultValue.deferred "contract/Greeter" "0xaddress")]
    [("deploy-transaction-hash", ResultValue.str "0xtxnhash")]
    rfl rfl rfl

/-- C10: neither `execute` mutates the operation's stored transaction spec:
the spec held by the operation when `execute` returns is the one stored at
construction, and every transaction submitted on the wire agrees with the
stored spec on every field except possibly `gas` (the automatically
budgeted value only ever lands on a fresh copy). -/
theorem C10_stored_transaction_never_mutated
    (dop : DeployContract) (top : TransactContract) (web3 : Web3) (cc : CompiledContracts) :
    ((dop.execute web3 cc).finalTransaction = dop.transaction ∧
      ((dop.execute web3 cc).submitted.all
        (fun tx => { tx with gas := dop.transaction.gas } == dop.transaction)) = true) ∧
    ((top.execute web3 cc).finalTransaction = top.transaction ∧
      ((top.execute web3 cc).submitted.all
        (fun tx => { tx with gas := top.transaction.gas } == top.transaction)) = true) := by
  constructor
  · unfold DeployContract.execute
    split
    · exact ⟨rfl, rfl⟩
    · split
      · exact ⟨rfl, rfl⟩
      · rename_i dt hdt
        have hdt' : ({ dt with gas := dop.transaction.gas } == dop.transaction) = true := by
          unfold DeployContract.budgetedTransaction at hdt
          dsimp only at hdt
          split at hdt
          · split at hdt
            · cases hdt
            · injection hdt with h
              subst h
              exact TransactionSpec.gas_overwrite_roundtrip _ _
          · injection hdt with h
            subst h
            exact TransactionSpec.gas_self_roundtrip _
        dsimp only
        split
        · split
          · exact ⟨rfl, by simp [hdt']⟩
          · split
            · exact ⟨rfl, by simp [hdt']⟩
            · exact ⟨rfl, by simp [hdt']⟩
        · exact ⟨rfl, by simp [hdt']⟩
  · unfold TransactContract.execute
    split
    · exact ⟨rfl, rfl⟩
    · split
      · exact ⟨rfl, rfl⟩
      · dsimp only
        split
        · split
          · exact ⟨rfl, by simp [TransactionSpec.gas_self_roundtrip]⟩
          · exact ⟨rfl, by simp [TransactionSpec.gas_self_roundtrip]⟩
        · exact ⟨rfl, by simp [TransactionSpec.gas_self_roundtrip]⟩

end Populus
